import Mathlib

/-!
Verification of `dbt/schema_tester.py` (class `SchemaTester`).

The Python module validates declarative data-quality constraints
(`not_null`, `unique`, `relationships`) against warehouse tables.  This
file gives a shallow embedding of the module: the SQL templates and their
denotational semantics over column contents, the execution adapter
`execute_query`, the three constraint handlers, the dispatcher
`validate_schema_constraint`, and the orchestrator `validate_schema`.

External collaborators (the warehouse cursor, the model compiler) are
modelled as function parameters, following the interfaces the source
calls them through.  Python exceptions are modelled by a class tag plus a
message and the optional `model` attribute that `execute_query` attaches;
the orchestrator's `except RuntimeError` boundary is modelled by the
predicate `ExcClass.catchableAsRuntimeError` (in Python,
`NotImplementedError` is a subclass of `RuntimeError`, while `TypeError`
and DB-API adapter errors such as `psycopg2.Error` are not).
-/

namespace SchemaTester

/-- A model identifier: `(model_group, model_name)`; the Python code builds
`model = (model_group, model_name)` and uses `model[-1]` as the table name. -/
abbrev ModelId := String × String

/-- The target configuration returned by `self.project.run_environment()`:
the fields the source reads are `type` and `schema`. -/
structure TargetConfig where
  type : String
  schema : String
deriving DecidableEq

/-- Python exception classes that occur in the source's control flow.
`databaseError` stands for the class of an error raised by the DB-API
cursor (e.g. `psycopg2.Error`), which does not derive from `RuntimeError`. -/
inductive ExcClass
  | runtimeError
  | notImplementedError
  | typeError
  | databaseError
deriving DecidableEq

/-- Whether `except RuntimeError` catches an exception of this class.
In Python, `NotImplementedError` is a subclass of `RuntimeError`;
`TypeError` and DB-API errors are not. -/
def ExcClass.catchableAsRuntimeError : ExcClass → Bool
  | .runtimeError => true
  | .notImplementedError => true
  | .typeError => false
  | .databaseError => false

/-- A Python exception value as the source manipulates it: its class, its
`message` attribute, and the `model` attribute that `execute_query` sets
on re-raise (absent unless set). -/
structure PyExc where
  cls : ExcClass
  message : String
  model : Option ModelId
deriving DecidableEq

/-- `QUERY_VALIDATE_NOT_NULL` from the source, verbatim. -/
def QUERY_VALIDATE_NOT_NULL : String :=
"
with validation as (
  select \"{field}\" as f
  from \"{schema}\".\"{table}\"
)
select count(*) from validation where f is null
"

/-- `QUERY_VALIDATE_UNIQUE` from the source, verbatim. -/
def QUERY_VALIDATE_UNIQUE : String :=
"
with validation as (
  select \"{field}\" as f
  from \"{schema}\".\"{table}\"
)
select count(*) from (
  select f from validation group by f having count(*) > 1
)
"

/-- `QUERY_VALIDATE_REFERENTIAL_INTEGRITY` from the source, verbatim. -/
def QUERY_VALIDATE_REFERENTIAL_INTEGRITY : String :=
"
with parent as (
  select \"{parent_field}\" as id
  from \"{schema}\".\"{parent_table}\"
), child as (
  select \"{child_field}\" as id
  from \"{schema}\".\"{child_table}\"
)
select count(*) from child
where id not in (select id from parent) and id is not null
"

/-- The opening brace character of a format placeholder. -/
def lbrace : Char := Char.ofNat 123

/-- The closing brace character of a format placeholder. -/
def rbrace : Char := Char.ofNat 125

/-- One left-to-right scan of `str.format`: a placeholder `\x7bname\x7d` is
replaced by the named argument, every other character is copied.  The
fuel argument (instantiated with the template length, an upper bound on
the number of steps) keeps the recursion structural. -/
def formatScan : Nat → List Char → List (String × String) → List Char
  | 0, _, _ => []
  | _ + 1, [], _ => []
  | fuel + 1, c :: rest, params =>
    if c = lbrace then
      let name := rest.takeWhile (fun d => d != rbrace)
      let remainder := (rest.dropWhile (fun d => d != rbrace)).drop 1
      (((params.lookup (String.mk name)).getD "").data) ++ formatScan fuel remainder params
    else c :: formatScan fuel rest params

/-- `make_query(query, params) = query.format(**params)`: the keyword
arguments are the params dict. -/
def make_query (query : String) (params : List (String × String)) : String :=
  String.mk (formatScan query.length query.data params)

/-- The parameter record built by `get_query_params`. -/
structure QueryParams where
  schema : String
  table : String
  field : String
deriving DecidableEq

/-- The Python dict `{"schema": ..., "table": ..., "field": ...}` as the
key/value list handed to `make_query`. -/
def QueryParams.toParams (p : QueryParams) : List (String × String) :=
  [("schema", p.schema), ("table", p.table), ("field", p.field)]

/-- `get_query_params(table, field)`: reads the active schema from the
run environment and pairs it with the table and field names. -/
def get_query_params (cfg : TargetConfig) (table field : String) : QueryParams :=
  ⟨cfg.schema, table, field⟩

/-- A reference descriptor of a `relationships` constraint:
`{from: ..., to: ..., field: ...}` in schema.yml (`from` and `to` are
Lean keywords, hence the field names `from_` and `to_`). -/
structure Reference where
  from_ : String
  to_ : String
  field : String
deriving DecidableEq

/-- The parameter record built inline by `validate_relationships`. -/
structure RIParams where
  schema : String
  parent_table : String
  parent_field : String
  child_table : String
  child_field : String
deriving DecidableEq

/-- The referential-integrity params dict as the key/value list handed to
`make_query`. -/
def RIParams.toParams (p : RIParams) : List (String × String) :=
  [("schema", p.schema), ("parent_table", p.parent_table),
   ("parent_field", p.parent_field), ("child_table", p.child_table),
   ("child_field", p.child_field)]

/-- The params dict built by `validate_relationships` for one reference:
`parent_table` is the model's own table, `parent_field` is `reference[from]`,
`child_table` is `reference[to]`, `child_field` is `reference[field]`. -/
def relationship_params (cfg : TargetConfig) (table : String) (r : Reference) : RIParams :=
  ⟨cfg.schema, table, r.from_, r.to_, r.field⟩

/-- The target object wrapped by `get_target` on the supported path. -/
structure RedshiftTarget where
  cfg : TargetConfig
deriving DecidableEq

/-- `get_target`: returns a `RedshiftTarget` when the configured type is
`redshift`, otherwise raises
`NotImplementedError("Unknown target type '...'")`. -/
def get_target (cfg : TargetConfig) : Except PyExc RedshiftTarget :=
  if cfg.type = "redshift" then Except.ok ⟨cfg⟩
  else Except.error ⟨ExcClass.notImplementedError,
    "Unknown target type \x27" ++ cfg.type ++ "\x27", none⟩

/-- Behaviour of the external cursor on one statement: `cursor.execute`
either raises, or succeeds and `cursor.fetchone()` then returns either no
row (`none`, Python `None`) or a row of scalars. -/
inductive ExecOutcome
  | raises (e : PyExc)
  | returns (row : Option (List Int))

/-- The external warehouse cursor, as a map from statement text to outcome. -/
abbrev Cursor := String → ExecOutcome

/-- One line printed by the source (information content of each `print`). -/
inductive Event
  | validateNotNull (table field : String)
  | validateUnique (table field : String)
  | validateRelationships (table fromField toTable toField : String)
  | okLine
  | failedLine (n : Int)
  | sqlLine (sql : String)
  | resultLine
  | errorLine (msg : String)
deriving DecidableEq

/-- `execute_query(model, sql)`: obtains the target (raising on an
unsupported type), runs the statement, tags and re-raises any execution
error with `e.model = model`, then fetches one row.  `fetchone()`
returning `None` makes `len(result)` raise `TypeError` (outside the
`try`, hence untagged); a row of length other than one prints the SQL and
a bare `RESULT:` line (the source formats the row into a placeholder-free
string) and raises the shape `RuntimeError`; a one-column row returns its
scalar. -/
def execute_query (cfg : TargetConfig) (db : Cursor) (model : ModelId) (sql : String) :
    List Event × Except PyExc Int :=
  match get_target cfg with
  | Except.error e => ([], Except.error e)
  | Except.ok _ =>
    match db sql with
    | ExecOutcome.raises e => ([], Except.error ⟨e.cls, e.message, some model⟩)
    | ExecOutcome.returns none =>
        ([], Except.error ⟨ExcClass.typeError,
          "object of type \x27NoneType\x27 has no len()", none⟩)
    | ExecOutcome.returns (some [v]) => ([], Except.ok v)
    | ExecOutcome.returns (some row) =>
        ([Event.sqlLine sql, Event.resultLine],
         Except.error ⟨ExcClass.runtimeError,
           "Unexpected validation result. Expected 1 record, got " ++ toString row.length,
           none⟩)

/-- `validate_not_null(model, constraint_data)`: for each field in order,
prints the header, synthesizes and executes the not-null statement, and
prints `OK` or `FAILED (n)`.  An exception from `execute_query`
propagates out of the loop (there is no inner `try`), so later fields are
not reached. -/
def validate_not_null (cfg : TargetConfig) (db : Cursor) (model : ModelId) :
    List String → List Event × Except PyExc Unit
  | [] => ([], Except.ok ())
  | field :: rest =>
    let table := model.2
    let sql := make_query QUERY_VALIDATE_NOT_NULL (get_query_params cfg table field).toParams
    let step := execute_query cfg db model sql
    match step.2 with
    | Except.error e => (Event.validateNotNull table field :: step.1, Except.error e)
    | Except.ok num_rows =>
      let line := if num_rows = 0 then Event.okLine else Event.failedLine num_rows
      let tail := validate_not_null cfg db model rest
      (Event.validateNotNull table field :: (step.1 ++ line :: tail.1), tail.2)

/-- `validate_unique(model, constraint_data)`: same loop as
`validate_not_null` with the uniqueness template and header. -/
def validate_unique (cfg : TargetConfig) (db : Cursor) (model : ModelId) :
    List String → List Event × Except PyExc Unit
  | [] => ([], Except.ok ())
  | field :: rest =>
    let table := model.2
    let sql := make_query QUERY_VALIDATE_UNIQUE (get_query_params cfg table field).toParams
    let step := execute_query cfg db model sql
    match step.2 with
    | Except.error e => (Event.validateUnique table field :: step.1, Except.error e)
    | Except.ok num_rows =>
      let line := if num_rows = 0 then Event.okLine else Event.failedLine num_rows
      let tail := validate_unique cfg db model rest
      (Event.validateUnique table field :: (step.1 ++ line :: tail.1), tail.2)

/-- `validate_relationships(model, constraint_data)`: for each reference
descriptor in order, builds the params via `relationship_params`,
synthesizes and executes the referential-integrity statement, and prints
`OK` or `FAILED (n)`; an exception propagates out of the loop. -/
def validate_relationships (cfg : TargetConfig) (db : Cursor) (model : ModelId) :
    List Reference → List Event × Except PyExc Unit
  | [] => ([], Except.ok ())
  | reference :: rest =>
    let table := model.2
    let sql := make_query QUERY_VALIDATE_REFERENTIAL_INTEGRITY
      (relationship_params cfg table reference).toParams
    let step := execute_query cfg db model sql
    match step.2 with
    | Except.error e =>
        (Event.validateRelationships table reference.from_ reference.to_ reference.field :: step.1,
         Except.error e)
    | Except.ok num_rows =>
      let line := if num_rows = 0 then Event.okLine else Event.failedLine num_rows
      let tail := validate_relationships cfg db model rest
      (Event.validateRelationships table reference.from_ reference.to_ reference.field ::
         (step.1 ++ line :: tail.1), tail.2)

/-- A constraint payload from schema.yml: a list of field names
(`not_null`, `unique`) or a list of reference descriptors
(`relationships`). -/
inductive ConstraintData
  | fields (fs : List String)
  | refs (rs : List Reference)
deriving DecidableEq

/-- The field-name form of a payload.  For the payload shapes schema.yml
produces (the only ones the source is run on), a `not_null`/`unique`
constraint carries `ConstraintData.fields` and this projection is the
identity on it. -/
def ConstraintData.asFields : ConstraintData → List String
  | .fields fs => fs
  | .refs _ => []

/-- The reference-descriptor form of a payload (identity on the
`relationships` payload shape). -/
def ConstraintData.asRefs : ConstraintData → List Reference
  | .refs rs => rs
  | .fields _ => []

/-- Python's `str` of the model tuple, as interpolated into the invalid
constraint message: `("group", "name")` rendered with single quotes. -/
def modelStr (m : ModelId) : String :=
  "(\x27" ++ m.1 ++ "\x27, \x27" ++ m.2 ++ "\x27)"

/-- The message of the `RuntimeError` raised for an unrecognized
constraint type. -/
def invalidConstraintMessage (ct : String) (model : ModelId) : String :=
  "Invalid constraint \x27" ++ ct ++ "\x27 specified for \x27" ++ modelStr model ++
    "\x27 in schema.yml"

/-- `validate_schema_constraint(model, constraint_type, constraint_data)`:
looks the handler up in the fixed map keyed by `not_null`, `unique`,
`relationships`; with no handler, raises the invalid-constraint
`RuntimeError` naming the constraint type and the model. -/
def validate_schema_constraint (cfg : TargetConfig) (db : Cursor) (model : ModelId)
    (constraint_type : String) (constraint_data : ConstraintData) :
    List Event × Except PyExc Unit :=
  if constraint_type = "not_null" then
    validate_not_null cfg db model constraint_data.asFields
  else if constraint_type = "unique" then
    validate_unique cfg db model constraint_data.asFields
  else if constraint_type = "relationships" then
    validate_relationships cfg db model constraint_data.asRefs
  else
    ([], Except.error ⟨ExcClass.runtimeError, invalidConstraintMessage constraint_type model, none⟩)

/-- The slice of a schema.yml definition the orchestrator reads:
`schema_info["constraints"]`, an ordered mapping from constraint-type tag
to payload (Python dict iteration order modelled as list order). -/
structure SchemaInfo where
  constraints : List (String × ConstraintData)
deriving DecidableEq

/-- The model compiler's answer, `compiler.get_model_config(group, name)`:
the source reads only `enabled`. -/
structure ModelConfig where
  enabled : Bool
deriving DecidableEq

/-- The external model compiler. -/
abbrev Compiler := String → String → ModelConfig

/-- Observable outcome of (a suffix of) a `validate_schema` run: the lines
printed, the `ModelIdentifier`s yielded, and — when an exception escaped
the `except RuntimeError` boundary — the exception that terminated the
generator (everything after it is not executed). -/
structure RunResult where
  events : List Event
  yields : List ModelId
  fatal : Option PyExc
deriving DecidableEq

/-- Sequencing of two run fragments: if the first ended in an uncaught
exception the second never runs; otherwise outputs concatenate. -/
def seqRun (r1 r2 : RunResult) : RunResult :=
  match r1.fatal with
  | some _ => r1
  | none => ⟨r1.events ++ r2.events, r1.yields ++ r2.yields, r2.fatal⟩

/-- The inner loop of `validate_schema` over one enabled model's
`constraints.items()`: each constraint type is dispatched inside
`try ... except RuntimeError`; on success the model is yielded; on a
caught `RuntimeError` the `ERRROR:` line (sic) with `e.message` is
printed and the loop continues; an exception of any other class escapes
and terminates the run. -/
def validate_constraints (cfg : TargetConfig) (db : Cursor) (model : ModelId) :
    List (String × ConstraintData) → RunResult
  | [] => ⟨[], [], none⟩
  | (constraint_type, constraint_data) :: rest =>
    let step := validate_schema_constraint cfg db model constraint_type constraint_data
    match step.2 with
    | Except.ok _ =>
        seqRun ⟨step.1, [model], none⟩ (validate_constraints cfg db model rest)
    | Except.error e =>
        if e.cls.catchableAsRuntimeError then
          seqRun ⟨step.1 ++ [Event.errorLine e.message], [], none⟩
            (validate_constraints cfg db model rest)
        else ⟨step.1, [], some e⟩

/-- The middle loop of `validate_schema` over `model_schemas.items()`:
models whose compiled config has `enabled` false are skipped with
`continue` (no constraints evaluated, nothing yielded). -/
def validate_models (cfg : TargetConfig) (db : Cursor) (compiler : Compiler)
    (model_group : String) : List (String × SchemaInfo) → RunResult
  | [] => ⟨[], [], none⟩
  | (model_name, schema_info) :: rest =>
    if (compiler model_group model_name).enabled then
      seqRun (validate_constraints cfg db (model_group, model_name) schema_info.constraints)
        (validate_models cfg db compiler model_group rest)
    else validate_models cfg db compiler model_group rest

/-- `validate_schema(schemas, compiler)`: the outer loop over
`schemas.items()` (model group → models). -/
def validate_schema (cfg : TargetConfig) (db : Cursor) (compiler : Compiler) :
    List (String × List (String × SchemaInfo)) → RunResult
  | [] => ⟨[], [], none⟩
  | (model_group, model_schemas) :: rest =>
    seqRun (validate_models cfg db compiler model_group model_schemas)
      (validate_schema cfg db compiler rest)

/-! ## Semantics of the synthesized statements

The three templates are aggregate queries over one or two columns.  Their
meaning is given over column contents (`List SqlVal`, a nullable scalar
per row), with SQL's three-valued logic for boolean expressions:
`Option Bool` with `none` for UNKNOWN, as specified by the SQL standard
and implemented by Redshift. -/

/-- A nullable SQL scalar. -/
abbrev SqlVal := Option Int

/-- SQL `=` on nullable scalars: UNKNOWN when either side is NULL. -/
def sqlEq (a b : SqlVal) : Option Bool :=
  match a, b with
  | some x, some y => some (decide (x = y))
  | _, _ => none

/-- SQL three-valued `OR`. -/
def sqlOr (a b : Option Bool) : Option Bool :=
  match a, b with
  | some true, _ => some true
  | _, some true => some true
  | some false, some false => some false
  | _, _ => none

/-- SQL three-valued `AND`. -/
def sqlAnd (a b : Option Bool) : Option Bool :=
  match a, b with
  | some false, _ => some false
  | _, some false => some false
  | some true, some true => some true
  | _, _ => none

/-- SQL three-valued `NOT`. -/
def sqlNot (a : Option Bool) : Option Bool := a.map (fun b => !b)

/-- SQL `v IN (list)`: the disjunction of `v = k` over the list. -/
def sqlIn (v : SqlVal) (ks : List SqlVal) : Option Bool :=
  ks.foldr (fun k acc => sqlOr (sqlEq v k) acc) (some false)

/-- SQL `v IS NOT NULL` (always two-valued). -/
def sqlIsNotNull (v : SqlVal) : Option Bool := some v.isSome

/-- Result of `QUERY_VALIDATE_NOT_NULL` on the selected column:
`count(*) from validation where f is null`. -/
def notNullViolations (col : List SqlVal) : Nat :=
  (col.filter (fun v => v.isNone)).length

/-- SQL `GROUP BY f` over the selected column: one group per distinct
value (NULLs group together), paired with its row count. -/
def sqlGroupBy (col : List SqlVal) : List (SqlVal × Nat) :=
  col.dedup.map (fun v => (v, col.count v))

/-- Result of `QUERY_VALIDATE_UNIQUE` on the selected column:
`count(*)` over `select f from validation group by f having count(*) > 1`. -/
def uniqueViolations (col : List SqlVal) : Nat :=
  ((sqlGroupBy col).filter (fun g => decide (1 < g.2))).length

/-- Result of `QUERY_VALIDATE_REFERENTIAL_INTEGRITY` on the two selected
columns: `count(*) from child where id not in (select id from parent) and
id is not null`, a row being counted when the WHERE clause is TRUE (not
FALSE or UNKNOWN). -/
def refIntegrityViolations (parent child : List SqlVal) : Nat :=
  (child.filter
    (fun idv => decide (sqlAnd (sqlNot (sqlIn idv parent)) (sqlIsNotNull idv) = some true))).length

/-- Column contents of the target schema's tables: table name → field
name → column. -/
abbrev Database := String → String → List SqlVal

/-- Denotation of the statement `validate_relationships` synthesizes for
one reference: the referential-integrity count with the parent column
taken from `(parent_table, parent_field)` and the child column from
`(child_table, child_field)`. -/
def denoteRI (dbase : Database) (p : RIParams) : Nat :=
  refIntegrityViolations (dbase p.parent_table p.parent_field)
    (dbase p.child_table p.child_field)

/-- The spec's reading of a `relationships` check (the comparator for the
refinement claim, following the spec's words, not the source): the model
under validation plays the child role, so the violations are the model's
own `from` values that are non-null and do not occur among the referenced
table's `field` values. -/
def spec_relationship_violations (modelFromCol refFieldCol : List SqlVal) : Nat :=
  (modelFromCol.filter (fun v => v.isSome && !(refFieldCol.contains v))).length

/-! ## Helper lemmas on the three-valued connectives -/

theorem sqlOr_some (a b : Bool) : sqlOr (some a) (some b) = some (a || b) := by
  cases a <;> cases b <;> rfl

theorem sqlAnd_some (a b : Bool) : sqlAnd (some a) (some b) = some (a && b) := by
  cases a <;> cases b <;> rfl

theorem sqlAnd_right_false (a : Option Bool) : sqlAnd a (some false) = some false := by
  match a with
  | none => rfl
  | some true => rfl
  | some false => rfl

theorem sqlIn_cons (v k : SqlVal) (ks : List SqlVal) :
    sqlIn v (k :: ks) = sqlOr (sqlEq v k) (sqlIn v ks) := rfl

/-- With no NULL among the keys, SQL `IN` is plain membership. -/
theorem sqlIn_eq_mem (x : Int) :
    ∀ (parent : List SqlVal), none ∉ parent →
      sqlIn (some x) parent = some (decide ((some x : SqlVal) ∈ parent))
  | [], _ => by simp [sqlIn]
  | k :: ks, h => by
    match k with
    | none => exact absurd (List.mem_cons_self _ _) h
    | some y =>
      have h2 : (none : SqlVal) ∉ ks := fun hm => h (List.mem_cons_of_mem _ hm)
      rw [sqlIn_cons, sqlIn_eq_mem x ks h2]
      show sqlOr (some (decide (x = y))) _ = _
      rw [sqlOr_some]
      simp [List.mem_cons]

/-- With no NULL in the parent column, the WHERE clause of the
referential-integrity statement holds exactly for the non-null child
values that are not members of the parent column, so the statement counts
exactly those rows. -/
theorem refIntegrity_eq_of_no_null_parent :
    ∀ (parent child : List SqlVal), none ∉ parent →
      refIntegrityViolations parent child
        = (child.filter (fun v => v.isSome && !(decide (v ∈ parent)))).length
  | _, [], _ => rfl
  | parent, c :: cs, h => by
    have ih := refIntegrity_eq_of_no_null_parent parent cs h
    unfold refIntegrityViolations at ih ⊢
    rw [List.filter_cons, List.filter_cons]
    match c with
    | none =>
      have hpred : sqlAnd (sqlNot (sqlIn none parent)) (sqlIsNotNull none) = some false := by
        show sqlAnd _ (some false) = some false
        exact sqlAnd_right_false _
      simp [hpred, ih]
    | some x =>
      have hpred : sqlAnd (sqlNot (sqlIn (some x) parent)) (sqlIsNotNull (some x))
          = some (!(decide ((some x : SqlVal) ∈ parent))) := by
        rw [sqlIn_eq_mem x parent h]
        show sqlAnd (some _) (some true) = _
        rw [sqlAnd_some, Bool.and_true]
      cases hmem : decide ((some x : SqlVal) ∈ parent) with
      | true => simp [hpred, hmem, ih]
      | false => simp [hpred, hmem, ih]

/-! ## Claims about the synthesized statements (C7, C8, C2) -/

/-- C7: for every uniqueness check, the synthesized statement returns the
number of distinct field values occurring more than once (the number of
duplicate groups), not the number of duplicate rows: on column values
`{1,1,2,3}` it returns 1, while the number of rows lying in duplicate
groups is 2. -/
theorem uniqueViolations_counts_duplicate_groups :
    (∀ col : List SqlVal,
        uniqueViolations col
          = (col.dedup.filter (fun v => decide (1 < col.count v))).length)
    ∧ uniqueViolations [some 1, some 1, some 2, some 3] = 1
    ∧ (([some 1, some 1, some 2, some 3] : List SqlVal).filter
        (fun v => decide (1 < ([some 1, some 1, some 2, some 3] : List SqlVal).count v))).length
        = 2 := by
  refine ⟨?_, by decide, by decide⟩
  intro col
  unfold uniqueViolations sqlGroupBy
  rw [List.filter_map, List.length_map]
  rfl

/-- C8 as stated fails when the parent column itself contains a NULL: with
parent column `{null}` and child column `{4}`, the child value 4 is
non-null and absent from the parent values, yet `4 NOT IN (NULL)` is
UNKNOWN under SQL three-valued logic, so the synthesized statement counts
0 violations where the claim requires 1. -/
theorem refIntegrity_null_parent_counterexample :
    refIntegrityViolations [none] [some 4] = 0
    ∧ (some 4 : SqlVal).isSome = true
    ∧ ¬ ((some 4 : SqlVal) ∈ ([none] : List SqlVal))
    ∧ (([some 4] : List SqlVal).filter
        (fun v => v.isSome && !(decide (v ∈ ([none] : List SqlVal))))).length = 1 := by
  refine ⟨by decide, rfl, by decide, by decide⟩

/-- C8 (amended): provided the parent column contains no NULL, the
synthesized referential-integrity statement counts exactly the child rows
whose value is non-null and absent from the parent column's values; null
child values are exempt. (When the parent column contains a NULL, SQL
`NOT IN` three-valued logic instead makes the count 0.) -/
theorem refIntegrityViolations_no_null_parent (parent child : List SqlVal)
    (h : none ∉ parent) :
    refIntegrityViolations parent child
      = (child.filter (fun v => v.isSome && !(decide (v ∈ parent)))).length :=
  refIntegrity_eq_of_no_null_parent parent child h

/-- Witness for C8 at the spec's example: parent keys `{1,2,3}`, child
values `{1,2,4,null}` give violation count 1 (the orphan 4; null exempt). -/
theorem refIntegrityViolations_no_null_parent_witness :
    ((none : SqlVal) ∉ ([some 1, some 2, some 3] : List SqlVal))
    ∧ refIntegrityViolations [some 1, some 2, some 3] [some 1, some 2, some 4, none] = 1 := by
  refine ⟨by decide, ?_⟩
  rw [refIntegrityViolations_no_null_parent [some 1, some 2, some 3]
    [some 1, some 2, some 4, none] (by decide)]
  decide

/-- Concrete table contents used for the C2 relationship-direction claim:
the model `orders` has `customer_id` column `{1}`, the referenced table
`customers` has `id` column `{1,2}`. -/
def ordersCustomersDb : Database := fun t f =>
  if t = "orders" && f = "customer_id" then [some 1]
  else if t = "customers" && f = "id" then [some 1, some 2]
  else []

set_option maxRecDepth 40000 in
/-- C2 fails: for model table `orders` and reference
`{from: customer_id, to: customers, field: id}`, `validate_relationships`
binds `parent_table` to the model's own table and `child_table` to the
referenced table `to`, so the synthesized statement counts the referenced
table's `id` values missing from the model's `customer_id` values (here
1), whereas the claim's child-role reading — the model's `from` values
must all exist among the referenced `field` values — yields 0 on the same
contents.  The last conjunct shows the exact SQL text synthesized. -/
theorem relationship_roles_counterexample :
    relationship_params ⟨"redshift", "analytics"⟩ "orders" ⟨"customer_id", "customers", "id"⟩
      = ⟨"analytics", "orders", "customer_id", "customers", "id"⟩
    ∧ denoteRI ordersCustomersDb
        (relationship_params ⟨"redshift", "analytics"⟩ "orders"
          ⟨"customer_id", "customers", "id"⟩) = 1
    ∧ spec_relationship_violations (ordersCustomersDb "orders" "customer_id")
        (ordersCustomersDb "customers" "id") = 0
    ∧ make_query QUERY_VALIDATE_REFERENTIAL_INTEGRITY
        (relationship_params ⟨"redshift", "analytics"⟩ "orders"
          ⟨"customer_id", "customers", "id"⟩).toParams =
"
with parent as (
  select \"customer_id\" as id
  from \"analytics\".\"orders\"
), child as (
  select \"id\" as id
  from \"analytics\".\"customers\"
)
select count(*) from child
where id not in (select id from parent) and id is not null
" := by
  refine ⟨rfl, by decide, by decide, by decide⟩

/-- C2 (amended): for every relationships constraint the model under
validation plays the parent role (its `from` column supplies the keys)
and the referenced table `to` plays the child role (its `field` rows are
counted as orphans): provided the model's `from` column has no NULL, the
synthesized statement counts the referenced table's rows whose `field`
value is non-null and absent from the model's `from` values. -/
theorem relationship_model_is_parent (dbase : Database) (cfg : TargetConfig)
    (table : String) (r : Reference) (h : none ∉ dbase table r.from_) :
    denoteRI dbase (relationship_params cfg table r)
      = ((dbase r.to_ r.field).filter
          (fun v => v.isSome && !(decide (v ∈ dbase table r.from_)))).length :=
  refIntegrity_eq_of_no_null_parent _ _ h

/-- Witness for C2 (amended) on concrete contents: the referenced table's
value 2 is missing from the model's `customer_id` column, so the check
reports one violation even though every model value exists in the
referenced table. -/
theorem relationship_model_is_parent_witness :
    ((none : SqlVal) ∉ ordersCustomersDb "orders" "customer_id")
    ∧ denoteRI ordersCustomersDb
        (relationship_params ⟨"redshift", "analytics"⟩ "orders"
          ⟨"customer_id", "customers", "id"⟩) = 1 := by
  refine ⟨by decide, ?_⟩
  rw [relationship_model_is_parent ordersCustomersDb ⟨"redshift", "analytics"⟩ "orders"
    ⟨"customer_id", "customers", "id"⟩ (by decide)]
  decide

/-! ## Concrete collaborators used by witnesses and counterexamples -/

/-- A cursor on which every statement returns the single scalar 0. -/
def dbAllZero : Cursor := fun _ => ExecOutcome.returns (some [0])

/-- A cursor on which every statement raises a `RuntimeError`. -/
def dbRaiseRuntime : Cursor :=
  fun _ => ExecOutcome.raises ⟨ExcClass.runtimeError, "relation does not exist", none⟩

/-- A cursor on which every statement raises a DB-API database error
(not a `RuntimeError` subclass). -/
def dbRaiseDatabase : Cursor :=
  fun _ => ExecOutcome.raises
    ⟨ExcClass.databaseError, "permission denied for relation users", none⟩

/-- A cursor whose `fetchone()` returns no row. -/
def dbFetchNone : Cursor := fun _ => ExecOutcome.returns none

/-- A cursor whose `fetchone()` returns a two-column row. -/
def dbTwoColumns : Cursor := fun _ => ExecOutcome.returns (some [0, 0])

/-- A model compiler that enables every model. -/
def allEnabled : Compiler := fun _ _ => ⟨true⟩

/-! ## Helper lemmas on run sequencing -/

theorem seqRun_none (es : List Event) (ys : List ModelId) (r : RunResult) :
    seqRun ⟨es, ys, none⟩ r = ⟨es ++ r.events, ys ++ r.yields, r.fatal⟩ := rfl

theorem seqRun_fatal_none (r1 r2 : RunResult) (h : r1.fatal = none) :
    (seqRun r1 r2).fatal = r2.fatal := by
  simp [seqRun, h]

theorem seqRun_yields_of_none (r1 r2 : RunResult) (h : r1.fatal = none) :
    (seqRun r1 r2).yields = r1.yields ++ r2.yields := by
  simp [seqRun, h]

theorem seqRun_fatal_none_iff (r1 r2 : RunResult) :
    (seqRun r1 r2).fatal = none ↔ r1.fatal = none ∧ r2.fatal = none := by
  cases hf : r1.fatal <;> simp [seqRun, hf]

/-! ## C9: disabled models are skipped entirely -/

/-- C9: a model whose compiled configuration has `enabled = false` is
skipped entirely: the run over a model list beginning with it is the run
over the remaining models — none of its constraints is evaluated, no
check line is reported for it, and no `ModelIdentifier` for it is
yielded. -/
theorem disabled_model_skipped (cfg : TargetConfig) (db : Cursor) (compiler : Compiler)
    (model_group model_name : String) (schema_info : SchemaInfo)
    (rest : List (String × SchemaInfo))
    (h : (compiler model_group model_name).enabled = false) :
    validate_models cfg db compiler model_group ((model_name, schema_info) :: rest)
      = validate_models cfg db compiler model_group rest := by
  simp [validate_models, h]

/-- A model compiler that disables exactly the model named `users`. -/
def usersDisabled : Compiler := fun _ n => ⟨n != "users"⟩

/-- Witness for C9: with `users` disabled, a run whose model list starts
with `users` (which declares a not-null constraint) equals the run on the
remaining models. -/
theorem disabled_model_skipped_witness :
    (usersDisabled "models" "users").enabled = false
    ∧ validate_models ⟨"redshift", "analytics"⟩ dbAllZero usersDisabled "models"
        [("users", ⟨[("not_null", ConstraintData.fields ["id"])]⟩), ("orders", ⟨[]⟩)]
      = validate_models ⟨"redshift", "analytics"⟩ dbAllZero usersDisabled "models"
        [("orders", ⟨[]⟩)] :=
  ⟨by decide, disabled_model_skipped _ _ _ _ _ _ _ (by decide)⟩

/-! ## C5: unrecognized constraint types are reported and the run continues -/

/-- C5: dispatching a constraint-type tag outside
`{not_null, unique, relationships}` raises the `RuntimeError` naming the
constraint type and the model; the orchestrator catches it at the
per-constraint boundary, reports it as an `ERRROR:` line, and continues
with the model's remaining constraint types and with the subsequent
models (given that the remaining constraints of the model do not
themselves end the run for an unrelated reason). -/
theorem invalid_constraint_reported_run_continues (cfg : TargetConfig) (db : Cursor)
    (compiler : Compiler) (g n ct : String) (cd : ConstraintData)
    (rest : List (String × ConstraintData)) (restModels : List (String × SchemaInfo))
    (h1 : ct ≠ "not_null") (h2 : ct ≠ "unique") (h3 : ct ≠ "relationships")
    (hen : (compiler g n).enabled = true)
    (hrest : (validate_constraints cfg db (g, n) rest).fatal = none) :
    validate_models cfg db compiler g ((n, ⟨(ct, cd) :: rest⟩) :: restModels)
      = seqRun ⟨Event.errorLine (invalidConstraintMessage ct (g, n))
                  :: (validate_constraints cfg db (g, n) rest).events,
                (validate_constraints cfg db (g, n) rest).yields, none⟩
          (validate_models cfg db compiler g restModels) := by
  simp only [validate_models, hen, if_true]
  have hdisp : validate_schema_constraint cfg db (g, n) ct cd
      = ([], Except.error ⟨ExcClass.runtimeError, invalidConstraintMessage ct (g, n), none⟩) := by
    simp [validate_schema_constraint, h1, h2, h3]
  have hcons : validate_constraints cfg db (g, n) ((ct, cd) :: rest)
      = ⟨Event.errorLine (invalidConstraintMessage ct (g, n))
           :: (validate_constraints cfg db (g, n) rest).events,
         (validate_constraints cfg db (g, n) rest).yields, none⟩ := by
    simp [validate_constraints, hdisp, ExcClass.catchableAsRuntimeError, seqRun_none, hrest]
  rw [hcons]

/-- Witness for C5: a model declaring `not_a_real_constraint` followed by
a valid `unique` constraint, then a second model; the invalid tag is
reported and both the remaining constraint and the next model still run. -/
theorem invalid_constraint_reported_run_continues_witness :
    ("not_a_real_constraint" ≠ "not_null")
    ∧ (allEnabled "models" "users").enabled = true
    ∧ (validate_constraints ⟨"redshift", "analytics"⟩ dbAllZero ("models", "users")
        [("unique", ConstraintData.fields ["id"])]).fatal = none
    ∧ validate_models ⟨"redshift", "analytics"⟩ dbAllZero allEnabled "models"
        [("users", ⟨[("not_a_real_constraint", ConstraintData.fields ["id"]),
                     ("unique", ConstraintData.fields ["id"])]⟩),
         ("orders", ⟨[("not_null", ConstraintData.fields ["id"])]⟩)]
      = seqRun ⟨Event.errorLine (invalidConstraintMessage "not_a_real_constraint" ("models", "users"))
                  :: (validate_constraints ⟨"redshift", "analytics"⟩ dbAllZero ("models", "users")
                       [("unique", ConstraintData.fields ["id"])]).events,
                (validate_constraints ⟨"redshift", "analytics"⟩ dbAllZero ("models", "users")
                  [("unique", ConstraintData.fields ["id"])]).yields, none⟩
          (validate_models ⟨"redshift", "analytics"⟩ dbAllZero allEnabled "models"
            [("orders", ⟨[("not_null", ConstraintData.fields ["id"])]⟩)]) :=
  ⟨by decide, rfl, rfl,
    invalid_constraint_reported_run_continues _ _ _ _ _ _ _ _ _
      (by decide) (by decide) (by decide) rfl rfl⟩

/-! ## C3: a failing entry aborts the rest of its handler invocation -/

/-- When executing the statement for the first field raises, the handler
returns after the header line with the tagged error: the value is
independent of the remaining fields, which are never evaluated. -/
theorem validate_not_null_raise_head (cfg : TargetConfig) (db : Cursor) (model : ModelId)
    (field : String) (rest : List String) (e : PyExc)
    (htype : cfg.type = "redshift")
    (hdb : db (make_query QUERY_VALIDATE_NOT_NULL
        (get_query_params cfg model.2 field).toParams) = ExecOutcome.raises e) :
    validate_not_null cfg db model (field :: rest)
      = ([Event.validateNotNull model.2 field],
         Except.error ⟨e.cls, e.message, some model⟩) := by
  simp [validate_not_null, execute_query, get_target, htype, hdb]

/-- Same abort behaviour for the uniqueness handler: an exception on the
first field's statement ends the invocation with the tagged error. -/
theorem validate_unique_raise_head (cfg : TargetConfig) (db : Cursor) (model : ModelId)
    (field : String) (rest : List String) (e : PyExc)
    (htype : cfg.type = "redshift")
    (hdb : db (make_query QUERY_VALIDATE_UNIQUE
        (get_query_params cfg model.2 field).toParams) = ExecOutcome.raises e) :
    validate_unique cfg db model (field :: rest)
      = ([Event.validateUnique model.2 field],
         Except.error ⟨e.cls, e.message, some model⟩) := by
  simp [validate_unique, execute_query, get_target, htype, hdb]

/-- Same abort behaviour for the relationships handler: an exception on
the first reference's statement ends the invocation with the tagged
error. -/
theorem validate_relationships_raise_head (cfg : TargetConfig) (db : Cursor)
    (model : ModelId) (r : Reference) (rrest : List Reference) (e : PyExc)
    (htype : cfg.type = "redshift")
    (hdb : db (make_query QUERY_VALIDATE_REFERENTIAL_INTEGRITY
        (relationship_params cfg model.2 r).toParams) = ExecOutcome.raises e) :
    validate_relationships cfg db model (r :: rrest)
      = ([Event.validateRelationships model.2 r.from_ r.to_ r.field],
         Except.error ⟨e.cls, e.message, some model⟩) := by
  simp [validate_relationships, execute_query, get_target, htype, hdb]

/-- C3 fails: with a cursor that raises on the first field's statement, a
not-null constraint over fields `["a", "b"]` stops after the first entry —
no header for `"b"` is ever printed and its statement is never executed,
because the loop body has no per-entry exception boundary. -/
theorem entry_failure_skips_later_entries_counterexample :
    validate_not_null ⟨"redshift", "analytics"⟩ dbRaiseRuntime ("models", "users") ["a", "b"]
      = ([Event.validateNotNull "users" "a"],
         Except.error ⟨ExcClass.runtimeError, "relation does not exist", some ("models", "users")⟩)
    ∧ Event.validateNotNull "users" "b"
        ∉ (validate_not_null ⟨"redshift", "analytics"⟩ dbRaiseRuntime
            ("models", "users") ["a", "b"]).1 :=
  ⟨rfl, by decide⟩

/-- C3 (amended): in every multi-entry handler (`not_null`, `unique`,
`relationships`) entries are processed strictly in declared order — a
successful entry is fully reported before the next entry is evaluated —
but a failure while executing one entry raises out of the handler
invocation: the subsequent entries are neither executed nor reported,
and that single failure, tagged with the model, is what reaches the
per-constraint boundary, where it is reported once and the run continues
with the next constraint. -/
theorem entry_failure_aborts_handler (cfg : TargetConfig) (dbR dbO : Cursor)
    (model : ModelId) (field : String) (rest : List String)
    (r : Reference) (rrest : List Reference) (e : PyExc) (n : Int)
    (cs : List (String × ConstraintData))
    (htype : cfg.type = "redshift")
    (h1 : dbR (make_query QUERY_VALIDATE_NOT_NULL
        (get_query_params cfg model.2 field).toParams) = ExecOutcome.raises e)
    (h2 : dbR (make_query QUERY_VALIDATE_UNIQUE
        (get_query_params cfg model.2 field).toParams) = ExecOutcome.raises e)
    (h3 : dbR (make_query QUERY_VALIDATE_REFERENTIAL_INTEGRITY
        (relationship_params cfg model.2 r).toParams) = ExecOutcome.raises e)
    (h4 : dbO (make_query QUERY_VALIDATE_NOT_NULL
        (get_query_params cfg model.2 field).toParams) = ExecOutcome.returns (some [n]))
    (h5 : dbO (make_query QUERY_VALIDATE_UNIQUE
        (get_query_params cfg model.2 field).toParams) = ExecOutcome.returns (some [n]))
    (h6 : dbO (make_query QUERY_VALIDATE_REFERENTIAL_INTEGRITY
        (relationship_params cfg model.2 r).toParams) = ExecOutcome.returns (some [n]))
    (hc : e.cls.catchableAsRuntimeError = true) :
    validate_not_null cfg dbR model (field :: rest)
      = ([Event.validateNotNull model.2 field],
         Except.error ⟨e.cls, e.message, some model⟩)
    ∧ validate_unique cfg dbR model (field :: rest)
      = ([Event.validateUnique model.2 field],
         Except.error ⟨e.cls, e.message, some model⟩)
    ∧ validate_relationships cfg dbR model (r :: rrest)
      = ([Event.validateRelationships model.2 r.from_ r.to_ r.field],
         Except.error ⟨e.cls, e.message, some model⟩)
    ∧ validate_not_null cfg dbO model (field :: rest)
      = (Event.validateNotNull model.2 field
           :: (if n = 0 then Event.okLine else Event.failedLine n)
           :: (validate_not_null cfg dbO model rest).1,
         (validate_not_null cfg dbO model rest).2)
    ∧ validate_unique cfg dbO model (field :: rest)
      = (Event.validateUnique model.2 field
           :: (if n = 0 then Event.okLine else Event.failedLine n)
           :: (validate_unique cfg dbO model rest).1,
         (validate_unique cfg dbO model rest).2)
    ∧ validate_relationships cfg dbO model (r :: rrest)
      = (Event.validateRelationships model.2 r.from_ r.to_ r.field
           :: (if n = 0 then Event.okLine else Event.failedLine n)
           :: (validate_relationships cfg dbO model rrest).1,
         (validate_relationships cfg dbO model rrest).2)
    ∧ validate_constraints cfg dbR model
        (("not_null", ConstraintData.fields (field :: rest)) :: cs)
      = seqRun ⟨[Event.validateNotNull model.2 field, Event.errorLine e.message], [], none⟩
          (validate_constraints cfg dbR model cs)
    ∧ validate_constraints cfg dbR model
        (("unique", ConstraintData.fields (field :: rest)) :: cs)
      = seqRun ⟨[Event.validateUnique model.2 field, Event.errorLine e.message], [], none⟩
          (validate_constraints cfg dbR model cs)
    ∧ validate_constraints cfg dbR model
        (("relationships", ConstraintData.refs (r :: rrest)) :: cs)
      = seqRun ⟨[Event.validateRelationships model.2 r.from_ r.to_ r.field,
                 Event.errorLine e.message], [], none⟩
          (validate_constraints cfg dbR model cs) := by
  have ha := validate_not_null_raise_head cfg dbR model field rest e htype h1
  have hb := validate_unique_raise_head cfg dbR model field rest e htype h2
  have hcr := validate_relationships_raise_head cfg dbR model r rrest e htype h3
  have hdispA : validate_schema_constraint cfg dbR model "not_null"
      (ConstraintData.fields (field :: rest))
      = ([Event.validateNotNull model.2 field],
         Except.error ⟨e.cls, e.message, some model⟩) := by
    simpa [validate_schema_constraint] using ha
  have hdispB : validate_schema_constraint cfg dbR model "unique"
      (ConstraintData.fields (field :: rest))
      = ([Event.validateUnique model.2 field],
         Except.error ⟨e.cls, e.message, some model⟩) := by
    simpa [validate_schema_constraint] using hb
  have hdispC : validate_schema_constraint cfg dbR model "relationships"
      (ConstraintData.refs (r :: rrest))
      = ([Event.validateRelationships model.2 r.from_ r.to_ r.field],
         Except.error ⟨e.cls, e.message, some model⟩) := by
    simpa [validate_schema_constraint] using hcr
  refine ⟨ha, hb, hcr, ?_, ?_, ?_, ?_, ?_, ?_⟩
  · simp [validate_not_null, execute_query, get_target, htype, h4]
  · simp [validate_unique, execute_query, get_target, htype, h5]
  · simp [validate_relationships, execute_query, get_target, htype, h6]
  · simp [validate_constraints, hdispA, hc, seqRun_none]
  · simp [validate_constraints, hdispB, hc, seqRun_none]
  · simp [validate_constraints, hdispC, hc, seqRun_none]

/-- Witness for C3 (amended): one raising cursor and one all-zero cursor
exercise every hypothesis; the failing first field aborts each handler
with the tagged error, a successful first field is reported before the
second is evaluated, and the single failure is reported once at the
per-constraint boundary while the run continues with the next
constraint. -/
theorem entry_failure_aborts_handler_witness :
    (⟨"redshift", "analytics"⟩ : TargetConfig).type = "redshift"
    ∧ dbRaiseRuntime (make_query QUERY_VALIDATE_NOT_NULL
        (get_query_params ⟨"redshift", "analytics"⟩ "users" "a").toParams)
      = ExecOutcome.raises ⟨ExcClass.runtimeError, "relation does not exist", none⟩
    ∧ dbAllZero (make_query QUERY_VALIDATE_UNIQUE
        (get_query_params ⟨"redshift", "analytics"⟩ "users" "a").toParams)
      = ExecOutcome.returns (some [0])
    ∧ ExcClass.runtimeError.catchableAsRuntimeError = true
    ∧ validate_not_null ⟨"redshift", "analytics"⟩ dbRaiseRuntime ("models", "users")
        ["a", "b"]
      = ([Event.validateNotNull "users" "a"],
         Except.error ⟨ExcClass.runtimeError, "relation does not exist",
           some ("models", "users")⟩)
    ∧ validate_unique ⟨"redshift", "analytics"⟩ dbRaiseRuntime ("models", "users")
        ["a", "b"]
      = ([Event.validateUnique "users" "a"],
         Except.error ⟨ExcClass.runtimeError, "relation does not exist",
           some ("models", "users")⟩)
    ∧ validate_relationships ⟨"redshift", "analytics"⟩ dbRaiseRuntime ("models", "users")
        [⟨"customer_id", "customers", "id"⟩]
      = ([Event.validateRelationships "users" "customer_id" "customers" "id"],
         Except.error ⟨ExcClass.runtimeError, "relation does not exist",
           some ("models", "users")⟩)
    ∧ validate_not_null ⟨"redshift", "analytics"⟩ dbAllZero ("models", "users")
        ["a", "b"]
      = (Event.validateNotNull "users" "a" :: Event.okLine
           :: (validate_not_null ⟨"redshift", "analytics"⟩ dbAllZero
                ("models", "users") ["b"]).1,
         (validate_not_null ⟨"redshift", "analytics"⟩ dbAllZero
           ("models", "users") ["b"]).2)
    ∧ validate_constraints ⟨"redshift", "analytics"⟩ dbRaiseRuntime ("models", "users")
        [("not_null", ConstraintData.fields ["a", "b"]),
         ("unique", ConstraintData.fields [])]
      = seqRun ⟨[Event.validateNotNull "users" "a",
                 Event.errorLine "relation does not exist"], [], none⟩
          (validate_constraints ⟨"redshift", "analytics"⟩ dbRaiseRuntime
            ("models", "users") [("unique", ConstraintData.fields [])]) := by
  have hh := entry_failure_aborts_handler ⟨"redshift", "analytics"⟩ dbRaiseRuntime
    dbAllZero ("models", "users") "a" ["b"] ⟨"customer_id", "customers", "id"⟩ []
    ⟨ExcClass.runtimeError, "relation does not exist", none⟩ 0
    [("unique", ConstraintData.fields [])] rfl rfl rfl rfl rfl rfl rfl rfl
  refine ⟨rfl, rfl, rfl, rfl, hh.1, hh.2.1, hh.2.2.1, ?_, hh.2.2.2.2.2.2.1⟩
  simpa using hh.2.2.2.1

/-! ## C1: tagged execution errors are caught only when they are RuntimeErrors -/

/-- C1 fails: a database error (class not derived from `RuntimeError`)
raised by `cursor.execute` is re-raised by `execute_query` tagged with
the offending `ModelIdentifier`, but the per-constraint boundary catches
only `RuntimeError`, so the tagged error escapes `validate_schema` and
terminates the run after the first header line. -/
theorem database_error_escapes_run_counterexample :
    validate_schema ⟨"redshift", "analytics"⟩ dbRaiseDatabase allEnabled
        [("models", [("users", ⟨[("not_null", ConstraintData.fields ["id"])]⟩)])]
      = ⟨[Event.validateNotNull "users" "id"], [],
         some ⟨ExcClass.databaseError, "permission denied for relation users",
           some ("models", "users")⟩⟩
    ∧ ExcClass.databaseError.catchableAsRuntimeError = false :=
  ⟨rfl, rfl⟩

/-- C1 (amended): when executing a synthesized statement raises,
`execute_query` re-raises the error tagged with the offending
`ModelIdentifier`; the per-constraint boundary of `validate_schema`
catches the tagged error exactly when its class is (a subclass of)
`RuntimeError`, in which case the run continues with the remaining
constraints — otherwise the tagged error propagates out of the run. -/
theorem tagged_error_caught_only_if_runtimeError (cfg : TargetConfig) (db : Cursor)
    (g n field : String) (fs : List String) (rest : List (String × ConstraintData))
    (e : PyExc)
    (htype : cfg.type = "redshift")
    (hdb : db (make_query QUERY_VALIDATE_NOT_NULL
        (get_query_params cfg n field).toParams) = ExecOutcome.raises e) :
    (execute_query cfg db (g, n) (make_query QUERY_VALIDATE_NOT_NULL
        (get_query_params cfg n field).toParams)).2
      = Except.error ⟨e.cls, e.message, some (g, n)⟩
    ∧ (validate_constraints cfg db (g, n)
        (("not_null", ConstraintData.fields (field :: fs)) :: rest)).fatal
      = (if e.cls.catchableAsRuntimeError
         then (validate_constraints cfg db (g, n) rest).fatal
         else some ⟨e.cls, e.message, some (g, n)⟩) := by
  constructor
  · simp [execute_query, get_target, htype, hdb]
  · have hh := validate_not_null_raise_head cfg db (g, n) field fs e htype hdb
    have hdisp : validate_schema_constraint cfg db (g, n) "not_null"
        (ConstraintData.fields (field :: fs))
        = ([Event.validateNotNull n field],
           Except.error ⟨e.cls, e.message, some (g, n)⟩) := by
      simpa [validate_schema_constraint] using hh
    by_cases hc : e.cls.catchableAsRuntimeError
    · simp [validate_constraints, hdisp, hc, seqRun_fatal_none]
    · simp [validate_constraints, hdisp, hc]

/-- Witness for C1 (amended) at a database error: the re-raised error is
tagged with the model, is not catchable as `RuntimeError`, and becomes
the run-terminating exception. -/
theorem tagged_error_caught_only_if_runtimeError_witness :
    (⟨"redshift", "analytics"⟩ : TargetConfig).type = "redshift"
    ∧ dbRaiseDatabase (make_query QUERY_VALIDATE_NOT_NULL
        (get_query_params ⟨"redshift", "analytics"⟩ "users" "id").toParams)
      = ExecOutcome.raises
          ⟨ExcClass.databaseError, "permission denied for relation users", none⟩
    ∧ (execute_query ⟨"redshift", "analytics"⟩ dbRaiseDatabase ("models", "users")
        (make_query QUERY_VALIDATE_NOT_NULL
          (get_query_params ⟨"redshift", "analytics"⟩ "users" "id").toParams)).2
      = Except.error ⟨ExcClass.databaseError, "permission denied for relation users",
          some ("models", "users")⟩
    ∧ (validate_constraints ⟨"redshift", "analytics"⟩ dbRaiseDatabase ("models", "users")
        [("not_null", ConstraintData.fields ["id"])]).fatal
      = some ⟨ExcClass.databaseError, "permission denied for relation users",
          some ("models", "users")⟩ := by
  refine ⟨rfl, rfl, ?_, ?_⟩
  · exact (tagged_error_caught_only_if_runtimeError ⟨"redshift", "analytics"⟩
      dbRaiseDatabase "models" "users" "id" [] [] _ rfl rfl).1
  · have hh := (tagged_error_caught_only_if_runtimeError ⟨"redshift", "analytics"⟩
      dbRaiseDatabase "models" "users" "id" [] [] _ rfl rfl).2
    simpa using hh

/-! ## C10: an empty fetch result is fatal, a wrong-width row is recoverable -/

/-- C10: when `fetchone()` yields no row at all, `len(result)` raises a
`TypeError` — outside the `try`, so untagged, and not of the recognized
recoverable kind — which escapes the per-constraint boundary and
terminates the whole run; whereas a row with the wrong number of columns
raises the shape `RuntimeError`, which the boundary catches, letting the
run continue. -/
theorem fetch_none_fatal_shape_error_recoverable (cfg : TargetConfig) (db1 db2 : Cursor)
    (g n field : String) (rest : List (String × ConstraintData)) (a b : Int)
    (htype : cfg.type = "redshift")
    (h1 : db1 (make_query QUERY_VALIDATE_NOT_NULL
        (get_query_params cfg n field).toParams) = ExecOutcome.returns none)
    (h2 : db2 (make_query QUERY_VALIDATE_NOT_NULL
        (get_query_params cfg n field).toParams) = ExecOutcome.returns (some [a, b])) :
    execute_query cfg db1 (g, n) (make_query QUERY_VALIDATE_NOT_NULL
        (get_query_params cfg n field).toParams)
      = ([], Except.error ⟨ExcClass.typeError,
          "object of type \x27NoneType\x27 has no len()", none⟩)
    ∧ ExcClass.typeError.catchableAsRuntimeError = false
    ∧ (validate_constraints cfg db1 (g, n)
        (("not_null", ConstraintData.fields [field]) :: rest)).fatal
      = some ⟨ExcClass.typeError, "object of type \x27NoneType\x27 has no len()", none⟩
    ∧ (execute_query cfg db2 (g, n) (make_query QUERY_VALIDATE_NOT_NULL
        (get_query_params cfg n field).toParams)).2
      = Except.error ⟨ExcClass.runtimeError,
          "Unexpected validation result. Expected 1 record, got 2", none⟩
    ∧ ExcClass.runtimeError.catchableAsRuntimeError = true
    ∧ (validate_constraints cfg db2 (g, n)
        (("not_null", ConstraintData.fields [field]) :: rest)).fatal
      = (validate_constraints cfg db2 (g, n) rest).fatal := by
  have hex1 : execute_query cfg db1 (g, n) (make_query QUERY_VALIDATE_NOT_NULL
      (get_query_params cfg n field).toParams)
      = ([], Except.error ⟨ExcClass.typeError,
          "object of type \x27NoneType\x27 has no len()", none⟩) := by
    simp [execute_query, get_target, htype, h1]
  have hex2 : execute_query cfg db2 (g, n) (make_query QUERY_VALIDATE_NOT_NULL
      (get_query_params cfg n field).toParams)
      = ([Event.sqlLine (make_query QUERY_VALIDATE_NOT_NULL
            (get_query_params cfg n field).toParams), Event.resultLine],
         Except.error ⟨ExcClass.runtimeError,
           "Unexpected validation result. Expected 1 record, got 2", none⟩) := by
    simp [execute_query, get_target, htype, h2]
    rfl
  have hnn1 : validate_not_null cfg db1 (g, n) [field]
      = ([Event.validateNotNull n field],
         Except.error ⟨ExcClass.typeError,
           "object of type \x27NoneType\x27 has no len()", none⟩) := by
    simp [validate_not_null, hex1]
  have hnn2 : validate_not_null cfg db2 (g, n) [field]
      = (Event.validateNotNull n field
           :: [Event.sqlLine (make_query QUERY_VALIDATE_NOT_NULL
                (get_query_params cfg n field).toParams), Event.resultLine],
         Except.error ⟨ExcClass.runtimeError,
           "Unexpected validation result. Expected 1 record, got 2", none⟩) := by
    simp [validate_not_null, hex2]
  refine ⟨hex1, rfl, ?_, ?_, rfl, ?_⟩
  · have hdisp : validate_schema_constraint cfg db1 (g, n) "not_null"
        (ConstraintData.fields [field])
        = ([Event.validateNotNull n field],
           Except.error ⟨ExcClass.typeError,
             "object of type \x27NoneType\x27 has no len()", none⟩) := by
      simpa [validate_schema_constraint] using hnn1
    simp [validate_constraints, hdisp, ExcClass.catchableAsRuntimeError]
  · rw [hex2]
  · have hdisp : validate_schema_constraint cfg db2 (g, n) "not_null"
        (ConstraintData.fields [field])
        = (Event.validateNotNull n field
             :: [Event.sqlLine (make_query QUERY_VALIDATE_NOT_NULL
                  (get_query_params cfg n field).toParams), Event.resultLine],
           Except.error ⟨ExcClass.runtimeError,
             "Unexpected validation result. Expected 1 record, got 2", none⟩) := by
      simpa [validate_schema_constraint] using hnn2
    simp [validate_constraints, hdisp, ExcClass.catchableAsRuntimeError, seqRun_fatal_none]

/-- Witness for C10 with a cursor returning no row and one returning a
two-column row. -/
theorem fetch_none_fatal_shape_error_recoverable_witness :
    (⟨"redshift", "analytics"⟩ : TargetConfig).type = "redshift"
    ∧ dbFetchNone (make_query QUERY_VALIDATE_NOT_NULL
        (get_query_params ⟨"redshift", "analytics"⟩ "users" "id").toParams)
      = ExecOutcome.returns none
    ∧ dbTwoColumns (make_query QUERY_VALIDATE_NOT_NULL
        (get_query_params ⟨"redshift", "analytics"⟩ "users" "id").toParams)
      = ExecOutcome.returns (some [0, 0])
    ∧ (validate_constraints ⟨"redshift", "analytics"⟩ dbFetchNone ("models", "users")
        [("not_null", ConstraintData.fields ["id"])]).fatal
      = some ⟨ExcClass.typeError, "object of type \x27NoneType\x27 has no len()", none⟩
    ∧ (validate_constraints ⟨"redshift", "analytics"⟩ dbTwoColumns ("models", "users")
        [("not_null", ConstraintData.fields ["id"])]).fatal = none := by
  have hh := fetch_none_fatal_shape_error_recoverable ⟨"redshift", "analytics"⟩
    dbFetchNone dbTwoColumns "models" "users" "id" [] 0 0 rfl rfl rfl
  exact ⟨rfl, rfl, rfl, hh.2.2.1, by rw [hh.2.2.2.2.2]; rfl⟩

/-! ## C4: an unsupported target type is caught per constraint, not fatal -/

/-- With a non-redshift target, `execute_query` raises the
`NotImplementedError` before consulting the cursor at all. -/
theorem execute_query_unsupported (cfg : TargetConfig) (db : Cursor) (model : ModelId)
    (sql : String) (h : cfg.type ≠ "redshift") :
    execute_query cfg db model sql
      = ([], Except.error ⟨ExcClass.notImplementedError,
          "Unknown target type \x27" ++ cfg.type ++ "\x27", none⟩) := by
  simp [execute_query, get_target, h]

theorem validate_not_null_err_unsupported (cfg : TargetConfig) (db : Cursor)
    (model : ModelId) (h : cfg.type ≠ "redshift") :
    ∀ (fs : List String) (e : PyExc),
      (validate_not_null cfg db model fs).2 = Except.error e
        → e.cls = ExcClass.notImplementedError
  | [], e, heq => by simp [validate_not_null] at heq
  | f :: rest, e, heq => by
    rw [validate_not_null, execute_query_unsupported cfg db model _ h] at heq
    simp at heq
    rw [← heq]

theorem validate_unique_err_unsupported (cfg : TargetConfig) (db : Cursor)
    (model : ModelId) (h : cfg.type ≠ "redshift") :
    ∀ (fs : List String) (e : PyExc),
      (validate_unique cfg db model fs).2 = Except.error e
        → e.cls = ExcClass.notImplementedError
  | [], e, heq => by simp [validate_unique] at heq
  | f :: rest, e, heq => by
    rw [validate_unique, execute_query_unsupported cfg db model _ h] at heq
    simp at heq
    rw [← heq]

theorem validate_relationships_err_unsupported (cfg : TargetConfig) (db : Cursor)
    (model : ModelId) (h : cfg.type ≠ "redshift") :
    ∀ (rs : List Reference) (e : PyExc),
      (validate_relationships cfg db model rs).2 = Except.error e
        → e.cls = ExcClass.notImplementedError
  | [], e, heq => by simp [validate_relationships] at heq
  | r :: rest, e, heq => by
    rw [validate_relationships, execute_query_unsupported cfg db model _ h] at heq
    simp at heq
    rw [← heq]

/-- With a non-redshift target, every error out of the dispatcher is
catchable at the `except RuntimeError` boundary. -/
theorem dispatcher_err_catchable_unsupported (cfg : TargetConfig) (db : Cursor)
    (model : ModelId) (ct : String) (cd : ConstraintData) (h : cfg.type ≠ "redshift")
    (e : PyExc) (heq : (validate_schema_constraint cfg db model ct cd).2 = Except.error e) :
    e.cls.catchableAsRuntimeError = true := by
  unfold validate_schema_constraint at heq
  split at heq
  · rw [validate_not_null_err_unsupported cfg db model h _ e heq]; rfl
  · split at heq
    · rw [validate_unique_err_unsupported cfg db model h _ e heq]; rfl
    · split at heq
      · rw [validate_relationships_err_unsupported cfg db model h _ e heq]; rfl
      · simp at heq
        rw [← heq]
        rfl

theorem validate_constraints_fatal_none_unsupported (cfg : TargetConfig) (db : Cursor)
    (model : ModelId) (h : cfg.type ≠ "redshift") :
    ∀ cs : List (String × ConstraintData),
      (validate_constraints cfg db model cs).fatal = none
  | [] => rfl
  | (ct, cd) :: rest => by
    have ih := validate_constraints_fatal_none_unsupported cfg db model h rest
    rw [validate_constraints]
    cases hstep : (validate_schema_constraint cfg db model ct cd).2 with
    | error e =>
      have hc := dispatcher_err_catchable_unsupported cfg db model ct cd h e hstep
      simp [hstep, hc, seqRun_fatal_none, ih]
    | ok u => simp [hstep, seqRun_fatal_none, ih]

theorem validate_models_fatal_none_unsupported (cfg : TargetConfig) (db : Cursor)
    (compiler : Compiler) (g : String) (h : cfg.type ≠ "redshift") :
    ∀ ms : List (String × SchemaInfo),
      (validate_models cfg db compiler g ms).fatal = none
  | [] => rfl
  | (n, info) :: rest => by
    have ih := validate_models_fatal_none_unsupported cfg db compiler g h rest
    rw [validate_models]
    by_cases hen : (compiler g n).enabled
    · simp [hen, seqRun_fatal_none _ _
        (validate_constraints_fatal_none_unsupported cfg db (g, n) h info.constraints), ih]
    · simp [hen, ih]

/-- C4 fails in part and holds in part: with a target type other than
`redshift`, the `NotImplementedError` is indeed raised before any query
runs (the cursor is never consulted), but since `NotImplementedError` is
a subclass of `RuntimeError` it is caught at the per-constraint boundary
like any recoverable check failure: the run never ends with an uncaught
exception, so the error does not surface to the caller as fatal. -/
theorem unsupported_target_caught_not_fatal (cfg : TargetConfig) (db : Cursor)
    (compiler : Compiler) (schemas : List (String × List (String × SchemaInfo)))
    (model : ModelId) (sql : String) (h : cfg.type ≠ "redshift") :
    execute_query cfg db model sql
      = ([], Except.error ⟨ExcClass.notImplementedError,
          "Unknown target type \x27" ++ cfg.type ++ "\x27", none⟩)
    ∧ ExcClass.notImplementedError.catchableAsRuntimeError = true
    ∧ (validate_schema cfg db compiler schemas).fatal = none := by
  refine ⟨execute_query_unsupported cfg db model sql h, rfl, ?_⟩
  induction schemas with
  | nil => rfl
  | cons gp rest ih =>
    obtain ⟨g, ms⟩ := gp
    rw [validate_schema]
    simp [seqRun_fatal_none _ _ (validate_models_fatal_none_unsupported cfg db compiler g h ms), ih]

/-- C4 fails: with target type `sqlite`, a run over two enabled models
each declaring one single-field constraint reports the unsupported-target
error once per constraint at the per-constraint boundary and continues
through both models; no exception escapes (`fatal = none`), so nothing
surfaces to the caller.  The cursor used here would raise a fatal
database error if it were ever consulted — it is not. -/
theorem unsupported_target_counterexample :
    validate_schema ⟨"sqlite", "main"⟩ dbRaiseDatabase allEnabled
        [("models", [("users", ⟨[("not_null", ConstraintData.fields ["id"])]⟩),
                     ("orders", ⟨[("unique", ConstraintData.fields ["id"])]⟩)])]
      = ⟨[Event.validateNotNull "users" "id",
          Event.errorLine "Unknown target type \x27sqlite\x27",
          Event.validateUnique "orders" "id",
          Event.errorLine "Unknown target type \x27sqlite\x27"],
         [], none⟩ := rfl

/-- Witness for C4 (amended) at the concrete unsupported target. -/
theorem unsupported_target_caught_not_fatal_witness :
    ((⟨"sqlite", "main"⟩ : TargetConfig).type ≠ "redshift")
    ∧ execute_query ⟨"sqlite", "main"⟩ dbRaiseDatabase ("models", "users") "select 1"
      = ([], Except.error ⟨ExcClass.notImplementedError,
          "Unknown target type \x27sqlite\x27", none⟩)
    ∧ (validate_schema ⟨"sqlite", "main"⟩ dbRaiseDatabase allEnabled
        [("models", [("users", ⟨[("not_null", ConstraintData.fields ["id"])]⟩),
                     ("orders", ⟨[("unique", ConstraintData.fields ["id"])]⟩)])]).fatal
      = none := by
  have hh := unsupported_target_caught_not_fatal ⟨"sqlite", "main"⟩ dbRaiseDatabase
    allEnabled
    [("models", [("users", ⟨[("not_null", ConstraintData.fields ["id"])]⟩),
                 ("orders", ⟨[("unique", ConstraintData.fields ["id"])]⟩)])]
    ("models", "users") "select 1" (by decide)
  exact ⟨by decide, hh.1, hh.2.2⟩

/-! ## C6: one yield per successfully-dispatched constraint type -/

/-- Whether dispatching one constraint of a model completes without an
exception. -/
def dispatchOk (cfg : TargetConfig) (db : Cursor) (model : ModelId)
    (c : String × ConstraintData) : Bool :=
  match (validate_schema_constraint cfg db model c.1 c.2).2 with
  | Except.ok _ => true
  | Except.error _ => false

/-- The claim's reading of the output sequence (comparator definition,
following the spec's words): for each model group and each enabled model
in order, one copy of the `ModelIdentifier` per successfully-dispatched
constraint type, independent of the checks' pass/fail outcomes. -/
def spec_expected_yields_models (cfg : TargetConfig) (db : Cursor) (compiler : Compiler)
    (g : String) : List (String × SchemaInfo) → List ModelId
  | [] => []
  | (n, info) :: rest =>
    (if (compiler g n).enabled
     then List.replicate (info.constraints.filter (dispatchOk cfg db (g, n))).length (g, n)
     else [])
      ++ spec_expected_yields_models cfg db compiler g rest

/-- The claim's reading of the output sequence across all model groups. -/
def spec_expected_yields (cfg : TargetConfig) (db : Cursor) (compiler : Compiler) :
    List (String × List (String × SchemaInfo)) → List ModelId
  | [] => []
  | (g, ms) :: rest =>
    spec_expected_yields_models cfg db compiler g ms
      ++ spec_expected_yields cfg db compiler rest

theorem validate_constraints_yields_eq (cfg : TargetConfig) (db : Cursor) (model : ModelId) :
    ∀ cs : List (String × ConstraintData),
      (validate_constraints cfg db model cs).fatal = none →
        (validate_constraints cfg db model cs).yields
          = List.replicate (cs.filter (dispatchOk cfg db model)).length model
  | [], _ => rfl
  | (ct, cd) :: rest, hf => by
    rw [validate_constraints] at hf ⊢
    cases hstep : (validate_schema_constraint cfg db model ct cd).2 with
    | ok u =>
      rw [hstep] at hf
      have hok : dispatchOk cfg db model (ct, cd) = true := by
        simp [dispatchOk, hstep]
      have hf2 : (validate_constraints cfg db model rest).fatal = none := hf
      have ih := validate_constraints_yields_eq cfg db model rest hf2
      show (seqRun ⟨(validate_schema_constraint cfg db model ct cd).1, [model], none⟩
          (validate_constraints cfg db model rest)).yields = _
      simp [seqRun_none, ih, List.filter_cons, hok, List.replicate_succ]
    | error e =>
      rw [hstep] at hf
      have hko : dispatchOk cfg db model (ct, cd) = false := by
        simp [dispatchOk, hstep]
      have hfi : (if e.cls.catchableAsRuntimeError = true then
            seqRun ⟨(validate_schema_constraint cfg db model ct cd).1
                ++ [Event.errorLine e.message], [], none⟩
              (validate_constraints cfg db model rest)
          else ⟨(validate_schema_constraint cfg db model ct cd).1, [], some e⟩).fatal
          = none := hf
      show (if e.cls.catchableAsRuntimeError = true then
            seqRun ⟨(validate_schema_constraint cfg db model ct cd).1
                ++ [Event.errorLine e.message], [], none⟩
              (validate_constraints cfg db model rest)
          else ⟨(validate_schema_constraint cfg db model ct cd).1, [], some e⟩).yields = _
      cases hc : e.cls.catchableAsRuntimeError with
      | true =>
        rw [hc] at hfi
        have hf2 : (validate_constraints cfg db model rest).fatal = none := hfi
        have ih := validate_constraints_yields_eq cfg db model rest hf2
        show (seqRun ⟨(validate_schema_constraint cfg db model ct cd).1
            ++ [Event.errorLine e.message], [], none⟩
          (validate_constraints cfg db model rest)).yields = _
        simp [seqRun_none, ih, List.filter_cons, hko]
      | false =>
        rw [hc] at hfi
        have hf2 : (some e : Option PyExc) = none := hfi
        exact absurd hf2 (Option.some_ne_none e)
  termination_by cs => cs.length

theorem validate_models_yields_eq (cfg : TargetConfig) (db : Cursor) (compiler : Compiler)
    (g : String) :
    ∀ ms : List (String × SchemaInfo),
      (validate_models cfg db compiler g ms).fatal = none →
        (validate_models cfg db compiler g ms).yields
          = spec_expected_yields_models cfg db compiler g ms
  | [], _ => rfl
  | (n, info) :: rest, hf => by
    rw [validate_models] at hf ⊢
    rw [spec_expected_yields_models]
    cases hen : (compiler g n).enabled with
    | true =>
      rw [hen] at hf
      have hf2 : (seqRun (validate_constraints cfg db (g, n) info.constraints)
          (validate_models cfg db compiler g rest)).fatal = none := hf
      have hparts := (seqRun_fatal_none_iff _ _).1 hf2
      have ih := validate_models_yields_eq cfg db compiler g rest hparts.2
      show (seqRun (validate_constraints cfg db (g, n) info.constraints)
          (validate_models cfg db compiler g rest)).yields = _
      rw [seqRun_yields_of_none _ _ hparts.1, ih,
        validate_constraints_yields_eq cfg db (g, n) info.constraints hparts.1]
      simp
    | false =>
      rw [hen] at hf
      have hf2 : (validate_models cfg db compiler g rest).fatal = none := hf
      show (validate_models cfg db compiler g rest).yields = _
      rw [validate_models_yields_eq cfg db compiler g rest hf2]
      simp
  termination_by ms => ms.length

/-- C6: for every run that is not terminated by an uncaught exception,
the orchestrator yields exactly one `ModelIdentifier` per
successfully-dispatched constraint type of each enabled model, in order,
independent of the checks' pass/fail outcomes — so N enabled models with
one successfully-dispatched constraint type each yield N identifiers, and
a model with k successfully-dispatched constraint types appears k times. -/
theorem yields_track_successful_dispatch (cfg : TargetConfig) (db : Cursor)
    (compiler : Compiler) (schemas : List (String × List (String × SchemaInfo)))
    (h : (validate_schema cfg db compiler schemas).fatal = none) :
    (validate_schema cfg db compiler schemas).yields
      = spec_expected_yields cfg db compiler schemas := by
  induction schemas with
  | nil => rfl
  | cons gp rest ih =>
    obtain ⟨g, ms⟩ := gp
    rw [validate_schema] at h ⊢
    rw [spec_expected_yields]
    have hparts := (seqRun_fatal_none_iff _ _).1 h
    rw [seqRun_yields_of_none _ _ hparts.1, ih hparts.2,
      validate_models_yields_eq cfg db compiler g ms hparts.1]

/-- Witness for C6: three enabled models, each with exactly one
successfully-dispatched constraint type (one yields a failing count, to
show pass/fail does not matter), yield exactly three identifiers —
`users` declares two constraint types and appears twice, `orders` and
`payments` once each, against four total checks. -/
theorem yields_track_successful_dispatch_witness :
    (validate_schema ⟨"redshift", "analytics"⟩ dbAllZero allEnabled
        [("models", [("users", ⟨[("not_null", ConstraintData.fields ["id"]),
                                 ("unique", ConstraintData.fields ["id", "email"])]⟩),
                     ("orders", ⟨[("relationships",
                        ConstraintData.refs [⟨"customer_id", "customers", "id"⟩])]⟩)]),
         ("analysis", [("payments", ⟨[("not_null", ConstraintData.fields ["id"])]⟩)])]).fatal
      = none
    ∧ (validate_schema ⟨"redshift", "analytics"⟩ dbAllZero allEnabled
        [("models", [("users", ⟨[("not_null", ConstraintData.fields ["id"]),
                                 ("unique", ConstraintData.fields ["id", "email"])]⟩),
                     ("orders", ⟨[("relationships",
                        ConstraintData.refs [⟨"customer_id", "customers", "id"⟩])]⟩)]),
         ("analysis", [("payments", ⟨[("not_null", ConstraintData.fields ["id"])]⟩)])]).yields
      = [("models", "users"), ("models", "users"), ("models", "orders"),
         ("analysis", "payments")] := by
  constructor
  · rfl
  · rw [yields_track_successful_dispatch]
    · rfl
    · rfl

end SchemaTester
